import Mathlib

/-!
Shallow embedding of the Encrypted Claim Lifecycle Coordinator of
FraudDetect_Z (src/frontend/web/src/App.tsx): the client-side state
machine that creates encrypted insurance claims, drives the
decrypt-and-verify protocol, refreshes the in-memory claim repository
from the ledger, and derives aggregate fraud statistics.

Ledger records are modelled as an association list from business id to
the record fields the contract exposes (`getBusinessData`).  Machine
numbers are modelled as `Nat`/`Int`/`Rat`; JavaScript coercions such as
`Number(x) || 0` and `parseInt(s) || 0` are modelled explicitly.
-/

namespace FraudDetect

/-- Fields of one ledger record, as returned by `contract.getBusinessData`. -/
structure BusinessData where
  name : String
  description : String
  publicValue1 : Nat
  timestamp : Nat
  isVerified : Bool
  decryptedValue : Nat
  creator : String
  deriving DecidableEq, Repr

/-- The client-side claim projection built by `loadClaims`
(interface `ClaimRecord` in App.tsx; `decryptedValue` is declared
optional there, hence `Option Nat`). -/
structure ClaimRecord where
  id : String
  policyNumber : String
  claimAmount : Nat
  claimDate : String
  provider : String
  status : String
  encryptedAmount : String
  isVerified : Bool
  decryptedValue : Option Nat
  timestamp : Nat
  creator : String
  deriving DecidableEq, Repr

/-- Aggregate metrics (interface `FraudStats` in App.tsx). -/
structure FraudStats where
  totalClaims : Nat
  verifiedClaims : Nat
  potentialFrauds : Nat
  totalAmount : Nat
  avgProcessingTime : Rat
  deriving DecidableEq, Repr

/-! Date formatting: `new Date(ts * 1000).toISOString().split('T')[0]` for a
nonnegative epoch-second timestamp.  Days-to-civil conversion follows the
standard Gregorian algorithm. -/

/-- Civil date (year, month, day) of a day count since 1970-01-01. -/
def civilFromDays (days : Nat) : Nat × Nat × Nat :=
  let z := days + 719468
  let era := z / 146097
  let doe := z % 146097
  let yoe := (doe - doe / 1460 + doe / 36524 - doe / 146096) / 365
  let y := yoe + era * 400
  let doy := doe - (365 * yoe + yoe / 4 - yoe / 100)
  let mp := (5 * doy + 2) / 153
  let d := doy - (153 * mp + 2) / 5 + 1
  let m := if mp < 10 then mp + 3 else mp - 9
  (if m ≤ 2 then y + 1 else y, m, d)

/-- Zero-padded two-digit decimal. -/
def pad2 (n : Nat) : String :=
  if n < 10 then "0" ++ Nat.repr n else Nat.repr n

/-- Zero-padded four-digit decimal (years 1970 to 9999 in this model). -/
def pad4 (n : Nat) : String :=
  if n < 10 then "000" ++ Nat.repr n
  else if n < 100 then "00" ++ Nat.repr n
  else if n < 1000 then "0" ++ Nat.repr n
  else Nat.repr n

/-- Date part of the ISO string of an epoch-second timestamp, as computed by
`new Date(Number(businessData.timestamp) * 1000).toISOString().split('T')[0]`. -/
def isoDateOfTimestamp (ts : Nat) : String :=
  let c := civilFromDays (ts / 86400)
  pad4 c.1 ++ "-" ++ pad2 c.2.1 ++ "-" ++ pad2 c.2.2

/-! The claim repository refresh (`loadClaims`). -/

/-- One repository entry built by `loadClaims` from a ledger record; field by
field the object literal pushed onto `claimsList` in App.tsx.  The JavaScript
coercion `Number(x) || 0` is the identity on the `Nat`-valued ledger fields.
Note that `decryptedValue` is always assigned (`some`), verified or not. -/
def mkClaimRecord (businessId : String) (bd : BusinessData) : ClaimRecord :=
  { id := businessId
    policyNumber := bd.name
    claimAmount := bd.publicValue1
    claimDate := isoDateOfTimestamp bd.timestamp
    provider := bd.description
    status := if bd.isVerified then "Verified" else "Pending"
    encryptedAmount := businessId
    isVerified := bd.isVerified
    decryptedValue := some bd.decryptedValue
    timestamp := bd.timestamp
    creator := bd.creator }

/-- The ledger as read through `getAllBusinessIds` / `getBusinessData`:
an association list from business id to record. -/
def Ledger := List (String × BusinessData)

/-- `loadClaims`: rebuild the repository from the ledger contents. -/
def loadClaims (ledger : Ledger) : List ClaimRecord :=
  ledger.map (fun p => mkClaimRecord p.1 p.2)

/-! The fraud statistics engine (`getFraudStats`). -/

/-- JavaScript truthiness of the optional `decryptedValue` field:
`undefined` and `0` are falsy. -/
def jsTruthy (o : Option Nat) : Bool :=
  match o with
  | none => false
  | some v => v != 0

/-- JavaScript comparison `c.decryptedValue > k`: false when the field is
`undefined` (`undefined > k` is false). -/
def jsGt (o : Option Nat) (k : Nat) : Bool :=
  match o with
  | none => false
  | some v => k < v

/-- `getFraudStats` over a repository snapshot; `nowSec` models
`Date.now()/1000`. -/
def getFraudStats (claims : List ClaimRecord) (nowSec : Rat) : FraudStats :=
  let totalClaims := claims.length
  let verifiedClaims := (claims.filter (fun c => c.isVerified)).length
  let potentialFrauds :=
    (claims.filter (fun c =>
      c.isVerified && jsTruthy c.decryptedValue && jsGt c.decryptedValue 10000)).length
  let totalAmount := (claims.map (fun c => c.claimAmount)).sum
  let avgProcessingTime : Rat :=
    if 0 < claims.length then
      (claims.map (fun c => nowSec - (c.timestamp : Rat))).sum / (claims.length : Rat)
    else 0
  { totalClaims := totalClaims
    verifiedClaims := verifiedClaims
    potentialFrauds := potentialFrauds
    totalAmount := totalAmount
    avgProcessingTime := avgProcessingTime / 3600 }

/-! JavaScript `parseInt` on the claim-amount input string. -/

/-- Decimal value of a digit-character list (most significant first). -/
def digitsVal (ds : List Char) : Nat :=
  ds.foldl (fun a c => a * 10 + (c.toNat - 48)) 0

/-- `parseInt(s)` (radix 10): skip leading whitespace, optional sign, read the
longest digit prefix; `none` models `NaN` (no digits found). -/
def jsParseInt (s : String) : Option Int :=
  let cs := s.data.dropWhile (fun c => c.isWhitespace)
  match cs with
  | '-' :: r =>
      let ds := r.takeWhile (fun c => c.isDigit)
      if ds.isEmpty then none else some (-(digitsVal ds : Int))
  | '+' :: r =>
      let ds := r.takeWhile (fun c => c.isDigit)
      if ds.isEmpty then none else some ((digitsVal ds : Int))
  | r =>
      let ds := r.takeWhile (fun c => c.isDigit)
      if ds.isEmpty then none else some ((digitsVal ds : Int))

/-- `parseInt(newClaimData.claimAmount) || 0`: `NaN` falls back to `0`
(and `0` itself stays `0`). -/
def jsParseIntOr0 (s : String) : Int :=
  match jsParseInt s with
  | none => 0
  | some v => if v = 0 then 0 else v

/-- Business id assigned at creation time: backtick template
claim-(Date.now()) stringifying the millisecond timestamp. -/
def mkBusinessId (nowMs : Nat) : String :=
  "claim-" ++ Nat.repr nowMs

/-! Claim creation (`createClaim`). -/

/-- The form state `newClaimData` (all four fields are strings). -/
structure NewClaimData where
  policyNumber : String
  claimAmount : String
  provider : String
  claimDate : String
  deriving DecidableEq, Repr

/-- Outcome of the encryption gateway call
`encrypt(contractAddress, address, claimAmount)`. -/
inductive EncryptOutcome
  | ok (encryptedData : String) (proof : String)
  | fail (msg : String)
  deriving DecidableEq, Repr

/-- The argument tuple of `contract.createBusinessData(...)`, in source
order.  Note there is no claim-date argument: the literal `0` is passed in
the sixth position. -/
structure SubmitPayload where
  businessId : String
  name : String
  encryptedData : String
  proof : String
  publicValue1 : Int
  publicValue2 : Int
  description : String
  deriving DecidableEq, Repr

/-- Outcome of `createBusinessData` followed by `tx.wait()`. -/
inductive TxOutcome
  | confirmed
  | rejected (msg : String)
  deriving DecidableEq, Repr

/-- Substring test used for `e.message?.includes(...)`, via `splitOn`. -/
def strContains (s sub : String) : Bool :=
  (s.splitOn sub).length != 1

/-- Error message selection in the catch branch of `createClaim`. -/
def createErrMsg (msg : String) : String :=
  if strContains msg "user rejected transaction" then "Transaction rejected by user"
  else "Submission failed: " ++ msg

/-- Observable result of one `createClaim` call: the final transaction
status, the gateway calls made (plaintext amounts passed to `encrypt`), the
`createBusinessData` submissions issued, and the repository afterwards. -/
structure CreateResult where
  statusPhase : String
  statusMessage : String
  gatewayCalls : List Int
  submissions : List SubmitPayload
  repo : List ClaimRecord
  deriving DecidableEq, Repr

/-- `createClaim`, sequenced as in the source: wallet check, signer
contract, `parseInt(claimAmount) || 0`, id from `Date.now()`, gateway
encryption, ledger write, `tx.wait()`, then `loadClaims`.  `signerOk`
models whether `getContractWithSigner` returns a contract; `enc` is the
gateway; `tx` the ledger write outcome; `ledgerAfter` the ledger contents
at the post-success refresh; `repo` the repository before the call. -/
def createClaim (connected : Bool) (address : Option String) (signerOk : Bool)
    (data : NewClaimData) (nowMs : Nat) (contractAddress : String)
    (enc : String → String → Int → EncryptOutcome)
    (tx : SubmitPayload → TxOutcome)
    (repo : List ClaimRecord) (ledgerAfter : Ledger) : CreateResult :=
  match address with
  | none =>
      { statusPhase := "error", statusMessage := "Please connect wallet first"
        gatewayCalls := [], submissions := [], repo := repo }
  | some addr =>
    if !connected then
      { statusPhase := "error", statusMessage := "Please connect wallet first"
        gatewayCalls := [], submissions := [], repo := repo }
    else if !signerOk then
      { statusPhase := "error"
        statusMessage := createErrMsg "Failed to get contract with signer"
        gatewayCalls := [], submissions := [], repo := repo }
    else
      let claimAmount := jsParseIntOr0 data.claimAmount
      let businessId := mkBusinessId nowMs
      match enc contractAddress addr claimAmount with
      | .fail m =>
          { statusPhase := "error", statusMessage := createErrMsg m
            gatewayCalls := [claimAmount], submissions := [], repo := repo }
      | .ok ed pf =>
          let payload : SubmitPayload :=
            { businessId := businessId, name := data.policyNumber
              encryptedData := ed, proof := pf
              publicValue1 := claimAmount, publicValue2 := 0
              description := data.provider }
          match tx payload with
          | .rejected m =>
              { statusPhase := "error", statusMessage := createErrMsg m
                gatewayCalls := [claimAmount], submissions := [payload], repo := repo }
          | .confirmed =>
              { statusPhase := "success"
                statusMessage := "Claim record created successfully!"
                gatewayCalls := [claimAmount], submissions := [payload]
                repo := loadClaims ledgerAfter }

/-! Decrypt-and-verify (`decryptClaim`). -/

/-- Outcome of awaiting `verifyDecryption(...)`, whose callback submits the
`contractWrite.verifyDecryption` transaction: it resolves (`ok`), the
transaction reverts with a message containing "Data already verified"
(`alreadyVerifiedRevert`), or the gateway fails before any submission is
made (`failedBeforeSubmit`). -/
inductive VerifyOutcome
  | ok
  | alreadyVerifiedRevert
  | failedBeforeSubmit (msg : String)
  deriving DecidableEq, Repr

/-- Observable result of one `decryptClaim` call: the returned
`number | null`, the final status, the protocol engagement, the
business ids for which a `verifyDecryption` transaction was submitted,
and the repository afterwards. -/
structure DecryptResult where
  value : Option Nat
  statusPhase : String
  statusMessage : String
  protocolInvoked : Bool
  submissions : List String
  repo : List ClaimRecord
  deriving DecidableEq, Repr

/-- `decryptClaim(businessId)`, sequenced as in the source: wallet check,
read `getBusinessData`; if `isVerified`, return the stored value at once
(no gateway call, no ledger write); otherwise run the gateway protocol
whose callback submits the verification transaction, then `loadClaims`.
`ledgerAtRead` is the ledger at the initial read, `ledgerAtRefresh` at the
refresh (the two are separate suspension points); `clearValue` is the
cleartext the gateway produces for the handle; `repo` the repository
before the call. -/
def decryptClaim (connected : Bool) (address : Option String)
    (ledgerAtRead ledgerAtRefresh : Ledger) (businessId : String)
    (clearValue : Nat) (outcome : VerifyOutcome)
    (repo : List ClaimRecord) : DecryptResult :=
  match address with
  | none =>
      { value := none, statusPhase := "error"
        statusMessage := "Please connect wallet first"
        protocolInvoked := false, submissions := [], repo := repo }
  | some _ =>
    if !connected then
      { value := none, statusPhase := "error"
        statusMessage := "Please connect wallet first"
        protocolInvoked := false, submissions := [], repo := repo }
    else
      match ledgerAtRead.lookup businessId with
      | none =>
          { value := none, statusPhase := "error"
            statusMessage := "Decryption failed: no such record"
            protocolInvoked := false, submissions := [], repo := repo }
      | some bd =>
        if bd.isVerified then
          { value := some bd.decryptedValue, statusPhase := "success"
            statusMessage := "Data already verified on-chain"
            protocolInvoked := false, submissions := [], repo := repo }
        else
          match outcome with
          | .ok =>
              { value := some clearValue, statusPhase := "success"
                statusMessage := "Claim amount decrypted and verified!"
                protocolInvoked := true, submissions := [businessId]
                repo := loadClaims ledgerAtRefresh }
          | .alreadyVerifiedRevert =>
              { value := none, statusPhase := "success"
                statusMessage := "Data is already verified on-chain"
                protocolInvoked := true, submissions := [businessId]
                repo := loadClaims ledgerAtRefresh }
          | .failedBeforeSubmit m =>
              { value := none, statusPhase := "error"
                statusMessage := "Decryption failed: " ++ m
                protocolInvoked := true, submissions := [], repo := repo }

/-! Interleaving semantics for two `decryptClaim` calls on the same claim
id.  Each call is a sequence of atomic segments separated by the
suspension points of the source (the awaited reads and the verification
submission).  `decryptClaim` contains no single-flight guard, so both
calls may pass the verified check before either submits. -/

/-- One on-ledger verification cell for a fixed claim id. -/
structure VCell where
  isVerified : Bool
  decryptedValue : Nat
  deriving DecidableEq, Repr

/-- Control point of one in-flight `decryptClaim` call: about to read the
record, about to submit the verification transaction (the unverified check
already passed), or finished with its return value. -/
inductive CallPhase
  | start
  | ready
  | finished (ret : Option Nat)
  deriving DecidableEq, Repr

/-- Joint state of the ledger cell, the count of verification
submissions issued for the id, and the two calls. -/
structure ConcState where
  cell : VCell
  subs : Nat
  pcA : CallPhase
  pcB : CallPhase
  deriving DecidableEq, Repr

/-- One atomic segment of one call.  From `start`: read the record and
run the synchronous verified check (short-circuit returns the stored
value, no submission).  From `ready`: submit the verification
transaction — the submission is issued either way; it reverts as already
verified (call returns null) if the cell was verified meanwhile, and
otherwise confirms, writing the cleartext. -/
def stepCall (clear : Nat) (cell : VCell) (pc : CallPhase) :
    VCell × Nat × CallPhase :=
  match pc with
  | .start =>
      if cell.isVerified then (cell, 0, .finished (some cell.decryptedValue))
      else (cell, 0, .ready)
  | .ready =>
      if cell.isVerified then (cell, 1, .finished none)
      else ({ isVerified := true, decryptedValue := clear }, 1, .finished (some clear))
  | .finished r => (cell, 0, .finished r)

/-- Run one scheduler choice: `false` steps call A, `true` steps call B. -/
def stepConc (clearA clearB : Nat) (who : Bool) (s : ConcState) : ConcState :=
  if who then
    let r := stepCall clearB s.cell s.pcB
    { cell := r.1, subs := s.subs + r.2.1, pcA := s.pcA, pcB := r.2.2 }
  else
    let r := stepCall clearA s.cell s.pcA
    { cell := r.1, subs := s.subs + r.2.1, pcA := r.2.2, pcB := s.pcB }

/-- Run a whole schedule. -/
def runConc (clearA clearB : Nat) (sched : List Bool) (s : ConcState) : ConcState :=
  sched.foldl (fun st who => stepConc clearA clearB who st) s

/-- Initial state: the claim is unverified with stored value `stored`, no
submissions, both calls at their entry point. -/
def initConc (stored : Nat) : ConcState :=
  { cell := { isVerified := false, decryptedValue := stored }
    subs := 0, pcA := .start, pcB := .start }

/-! Concrete fixtures used by witnesses and counterexamples. -/

/-- A verified ledger record with stored cleartext 42. -/
def bdVerified : BusinessData :=
  { name := "POL-1", description := "Acme", publicValue1 := 100
    timestamp := 0, isVerified := true, decryptedValue := 42, creator := "0xA" }

/-- An unverified ledger record (the contract stores 0 in
`decryptedValue` until verification). -/
def bdUnverified : BusinessData :=
  { name := "POL-2", description := "Acme", publicValue1 := 100
    timestamp := 0, isVerified := false, decryptedValue := 0, creator := "0xA" }

/-- A gateway that always succeeds. -/
def encOk : String → String → Int → EncryptOutcome :=
  fun _ _ _ => .ok "ct" "pf"

/-- A ledger write that always confirms. -/
def txOk : SubmitPayload → TxOutcome :=
  fun _ => .confirmed

end FraudDetect

namespace FraudDetect

/-- C1: a `decryptAndVerify` (`decryptClaim`) call on an id whose ledger
record already has `isVerified = true` returns the stored `decryptedValue`
immediately, does not invoke the decryption protocol, and issues no ledger
write for that call. -/
theorem decryptClaim_verified_shortCircuit
    (addr : String) (ledgerR ledgerF : Ledger) (businessId : String)
    (clear : Nat) (outcome : VerifyOutcome) (repo : List ClaimRecord)
    (bd : BusinessData)
    (hlook : ledgerR.lookup businessId = some bd) (hver : bd.isVerified = true) :
    (decryptClaim true (some addr) ledgerR ledgerF businessId clear outcome repo).value
        = some bd.decryptedValue ∧
    (decryptClaim true (some addr) ledgerR ledgerF businessId clear outcome repo).protocolInvoked
        = false ∧
    (decryptClaim true (some addr) ledgerR ledgerF businessId clear outcome repo).submissions
        = [] ∧
    (decryptClaim true (some addr) ledgerR ledgerF businessId clear outcome repo).statusPhase
        = "success" := by
  simp [decryptClaim, hlook, hver]

/-- Witness for C1 at a concrete verified record. -/
theorem decryptClaim_verified_shortCircuit_witness :
    (decryptClaim true (some "0xA") [("claim-1", bdVerified)] [] "claim-1" 7
        VerifyOutcome.ok []).value = some bdVerified.decryptedValue ∧
    (decryptClaim true (some "0xA") [("claim-1", bdVerified)] [] "claim-1" 7
        VerifyOutcome.ok []).protocolInvoked = false ∧
    (decryptClaim true (some "0xA") [("claim-1", bdVerified)] [] "claim-1" 7
        VerifyOutcome.ok []).submissions = [] ∧
    (decryptClaim true (some "0xA") [("claim-1", bdVerified)] [] "claim-1" 7
        VerifyOutcome.ok []).statusPhase = "success" :=
  decryptClaim_verified_shortCircuit "0xA" [("claim-1", bdVerified)] [] "claim-1" 7
    VerifyOutcome.ok [] bdVerified (by decide) (by decide)

/-- C2 counterexample: with the record unverified at the initial read and
the verification transaction reverting as already verified mid-flight
(refresh then shows stored value 42), the call resolves with `null`
(`value = none`), not with the ledger's stored `decryptedValue` 42. -/
theorem decryptClaim_alreadyVerified_returns_null
    : (decryptClaim true (some "0xA") [("claim-1", bdUnverified)]
        [("claim-1", bdVerified)] "claim-1" 7
        VerifyOutcome.alreadyVerifiedRevert []).value = none ∧
      (([("claim-1", bdVerified)] : Ledger).lookup "claim-1").map
        (fun bd => bd.decryptedValue) = some 42 ∧
      ¬ (decryptClaim true (some "0xA") [("claim-1", bdUnverified)]
        [("claim-1", bdVerified)] "claim-1" 7
        VerifyOutcome.alreadyVerifiedRevert []).value = some 42 := by
  refine ⟨by decide, by decide, by decide⟩

/-- C2 amended: when the ledger reports already-verified mid-flight, the
call resolves without surfacing an error (final status is success), the
repository is re-fetched (so the stored `decryptedValue` becomes visible
there), but the call's own return value is `null`, not the stored value. -/
theorem decryptClaim_alreadyVerified_absorbed
    (addr : String) (ledgerR ledgerF : Ledger) (businessId : String)
    (clear : Nat) (repo : List ClaimRecord) (bd : BusinessData)
    (hlook : ledgerR.lookup businessId = some bd) (hver : bd.isVerified = false) :
    (decryptClaim true (some addr) ledgerR ledgerF businessId clear
        VerifyOutcome.alreadyVerifiedRevert repo).statusPhase = "success" ∧
    (decryptClaim true (some addr) ledgerR ledgerF businessId clear
        VerifyOutcome.alreadyVerifiedRevert repo).value = none ∧
    (decryptClaim true (some addr) ledgerR ledgerF businessId clear
        VerifyOutcome.alreadyVerifiedRevert repo).repo = loadClaims ledgerF := by
  simp [decryptClaim, hlook, hver]

/-- Witness for the amended C2 at a concrete mid-flight race. -/
theorem decryptClaim_alreadyVerified_absorbed_witness :
    (decryptClaim true (some "0xA") [("claim-1", bdUnverified)]
        [("claim-1", bdVerified)] "claim-1" 7
        VerifyOutcome.alreadyVerifiedRevert []).statusPhase = "success" ∧
    (decryptClaim true (some "0xA") [("claim-1", bdUnverified)]
        [("claim-1", bdVerified)] "claim-1" 7
        VerifyOutcome.alreadyVerifiedRevert []).value = none ∧
    (decryptClaim true (some "0xA") [("claim-1", bdUnverified)]
        [("claim-1", bdVerified)] "claim-1" 7
        VerifyOutcome.alreadyVerifiedRevert []).repo
      = loadClaims [("claim-1", bdVerified)] :=
  decryptClaim_alreadyVerified_absorbed "0xA" [("claim-1", bdUnverified)]
    [("claim-1", bdVerified)] "claim-1" 7 [] bdUnverified (by decide) (by decide)

/-- C3: when the encryption gateway step of `createClaim` fails, no ledger
write occurs (`createBusinessData` is never called), the claim repository
is unchanged, and the operation status reports an error. -/
theorem createClaim_encryptFail_noWrite
    (addr : String) (signerOk : Bool) (data : NewClaimData) (nowMs : Nat)
    (contractAddress : String) (enc : String → String → Int → EncryptOutcome)
    (tx : SubmitPayload → TxOutcome) (repo : List ClaimRecord)
    (ledgerAfter : Ledger) (m : String)
    (hsign : signerOk = true)
    (henc : enc contractAddress addr (jsParseIntOr0 data.claimAmount)
        = EncryptOutcome.fail m) :
    (createClaim true (some addr) signerOk data nowMs contractAddress enc tx
        repo ledgerAfter).submissions = [] ∧
    (createClaim true (some addr) signerOk data nowMs contractAddress enc tx
        repo ledgerAfter).repo = repo ∧
    (createClaim true (some addr) signerOk data nowMs contractAddress enc tx
        repo ledgerAfter).statusPhase = "error" := by
  subst hsign
  simp [createClaim, henc]

/-- Witness for C3 with a gateway that always fails. -/
theorem createClaim_encryptFail_noWrite_witness :
    (createClaim true (some "0xA") true
        { policyNumber := "POL-1", claimAmount := "500", provider := "Acme",
          claimDate := "2024-01-15" } 5 "0xC"
        (fun _ _ _ => EncryptOutcome.fail "boom") txOk
        [] []).submissions = [] ∧
    (createClaim true (some "0xA") true
        { policyNumber := "POL-1", claimAmount := "500", provider := "Acme",
          claimDate := "2024-01-15" } 5 "0xC"
        (fun _ _ _ => EncryptOutcome.fail "boom") txOk
        [] []).repo = [] ∧
    (createClaim true (some "0xA") true
        { policyNumber := "POL-1", claimAmount := "500", provider := "Acme",
          claimDate := "2024-01-15" } 5 "0xC"
        (fun _ _ _ => EncryptOutcome.fail "boom") txOk
        [] []).statusPhase = "error" :=
  createClaim_encryptFail_noWrite "0xA" true
    { policyNumber := "POL-1", claimAmount := "500", provider := "Acme",
      claimDate := "2024-01-15" } 5 "0xC"
    (fun _ _ _ => EncryptOutcome.fail "boom") txOk [] [] "boom" rfl rfl

/-- C5 counterexample: after a refresh from a ledger holding one
unverified record, the repository claim has `isVerified = false` yet its
`decryptedValue` is defined (`loadClaims` always assigns it, coercing to
0), so `decryptedValue` defined-iff-`isVerified` fails. -/
theorem loadClaims_decryptedValue_iff_fails :
    ((loadClaims [("claim-2", bdUnverified)]).map
        (fun c => (c.isVerified, c.decryptedValue))) = [(false, some 0)] ∧
    ¬ (∀ c ∈ loadClaims [("claim-2", bdUnverified)],
        (c.decryptedValue.isSome = true ↔ c.isVerified = true)) := by
  refine ⟨by decide, by decide⟩

/-- C5 amended: after any refresh, every repository claim's
`decryptedValue` is defined (the ledger value, 0 for unverified claims);
in particular `isVerified = true` implies it is defined, but the converse
direction of the claimed iff does not hold. -/
theorem loadClaims_decryptedValue_always_defined
    (ledger : Ledger) (c : ClaimRecord) (hc : c ∈ loadClaims ledger) :
    c.decryptedValue.isSome = true := by
  simp only [loadClaims, List.mem_map] at hc
  obtain ⟨p, _, rfl⟩ := hc
  simp [mkClaimRecord]

/-- Witness for the amended C5 at a concrete one-record ledger. -/
theorem loadClaims_decryptedValue_always_defined_witness :
    (mkClaimRecord "claim-2" bdUnverified).decryptedValue.isSome = true :=
  loadClaims_decryptedValue_always_defined [("claim-2", bdUnverified)]
    (mkClaimRecord "claim-2" bdUnverified) (by simp [loadClaims])

/-- The spec's `potentialFrauds` count: claims with `isVerified` and
`decryptedValue > 10000` (a comparison that is false when the field is
undefined). -/
def specPotentialFrauds (claims : List ClaimRecord) : Nat :=
  (claims.filter (fun c => c.isVerified && jsGt c.decryptedValue 10000)).length

/-- C6: over every repository snapshot, the `potentialFrauds` statistic
computed by `getFraudStats` equals the number of claims with
`isVerified = true` and `decryptedValue > 10000` (the extra truthiness
test in the source is redundant, since any value above 10000 is
nonzero). -/
theorem getFraudStats_potentialFrauds_eq
    (claims : List ClaimRecord) (nowSec : Rat) :
    (getFraudStats claims nowSec).potentialFrauds = specPotentialFrauds claims := by
  show (claims.filter (fun c =>
      c.isVerified && jsTruthy c.decryptedValue && jsGt c.decryptedValue 10000)).length
    = specPotentialFrauds claims
  unfold specPotentialFrauds
  congr 1
  apply List.filter_congr
  intro c _
  cases hdv : c.decryptedValue with
  | none => simp [jsTruthy, jsGt]
  | some v =>
      cases hcv : c.isVerified <;> simp [jsTruthy, jsGt]
      intro h
      omega

/-- C7: the fraud statistics computation is total on the empty claim set
and returns `totalClaims = 0` and a zero average processing time, with the
division guarded. -/
theorem getFraudStats_empty_total (nowSec : Rat) :
    (getFraudStats [] nowSec).totalClaims = 0 ∧
    (getFraudStats [] nowSec).avgProcessingTime = 0 := by
  constructor
  · rfl
  · simp [getFraudStats]

/-- C4 counterexample: `decryptClaim` has no single-flight guard, so in the
interleaving where both calls pass the verified check before either
submits (schedule A-read, B-read, A-submit, B-submit), two
`verifyDecryption` submissions are issued for the same claim id. -/
theorem decryptClaim_interleaved_double_submit :
    (runConc 7 9 [false, true, false, true] (initConc 0)).subs = 2 ∧
    ¬ (runConc 7 9 [false, true, false, true] (initConc 0)).subs ≤ 1 := by
  refine ⟨by decide, by decide⟩

/-- C4 amended: only non-overlapping calls are single-flight — when the
second call starts after the first completes, it short-circuits on the
now-verified record (returning the first call's value) and exactly one
verification submission is issued; a genuinely concurrent second call is
neither coalesced nor rejected and may submit again. -/
theorem decryptClaim_sequential_single_submit (stored clearA clearB : Nat) :
    (runConc clearA clearB [false, false, true] (initConc stored)).subs = 1 ∧
    (runConc clearA clearB [false, false, true] (initConc stored)).pcB
      = CallPhase.finished (some clearA) := by
  simp [runConc, stepConc, stepCall, initConc]

/-- C10: when the claim-amount input string has no parseable integer
(empty or non-numeric), `createClaim` does not fail on input validation:
the amount is coerced to 0, the gateway encrypts 0, and a claim with
public amount 0 is submitted, completing with success status. -/
theorem createClaim_unparseable_amount_coerced_zero
    (addr : String) (data : NewClaimData) (nowMs : Nat) (ca : String)
    (enc : String → String → Int → EncryptOutcome)
    (tx : SubmitPayload → TxOutcome) (repo : List ClaimRecord)
    (ledgerAfter : Ledger) (ed pf : String)
    (hparse : jsParseInt data.claimAmount = none)
    (henc : enc ca addr 0 = EncryptOutcome.ok ed pf)
    (htx : tx { businessId := mkBusinessId nowMs, name := data.policyNumber,
                encryptedData := ed, proof := pf, publicValue1 := 0,
                publicValue2 := 0, description := data.provider }
        = TxOutcome.confirmed) :
    (createClaim true (some addr) true data nowMs ca enc tx repo
        ledgerAfter).statusPhase = "success" ∧
    (createClaim true (some addr) true data nowMs ca enc tx repo
        ledgerAfter).gatewayCalls = [0] ∧
    (createClaim true (some addr) true data nowMs ca enc tx repo
        ledgerAfter).submissions.map (fun p => p.publicValue1) = [0] := by
  have h0 : jsParseIntOr0 data.claimAmount = 0 := by
    simp [jsParseIntOr0, hparse]
  simp [createClaim, h0, henc, htx]

/-- Witness for C10 at the empty amount string. -/
theorem createClaim_unparseable_amount_coerced_zero_witness :
    (createClaim true (some "0xA") true
        { policyNumber := "POL-1", claimAmount := "", provider := "Acme",
          claimDate := "2024-01-15" } 5 "0xC" encOk txOk [] []).statusPhase
      = "success" ∧
    (createClaim true (some "0xA") true
        { policyNumber := "POL-1", claimAmount := "", provider := "Acme",
          claimDate := "2024-01-15" } 5 "0xC" encOk txOk [] []).gatewayCalls
      = [0] ∧
    (createClaim true (some "0xA") true
        { policyNumber := "POL-1", claimAmount := "", provider := "Acme",
          claimDate := "2024-01-15" } 5 "0xC" encOk txOk []
        []).submissions.map (fun p => p.publicValue1) = [0] :=
  createClaim_unparseable_amount_coerced_zero "0xA"
    { policyNumber := "POL-1", claimAmount := "", provider := "Acme",
      claimDate := "2024-01-15" } 5 "0xC" encOk txOk [] [] "ct" "pf"
    (by decide) rfl rfl

/-- The unverified ledger record matching the claim of the C9 scenario. -/
def bd9 : BusinessData :=
  { name := "POL-9", description := "Acme", publicValue1 := 500
    timestamp := 0, isVerified := false, decryptedValue := 0, creator := "0xA" }

/-- C9 counterexample: the caller-supplied claim date is never transmitted
to the ledger — two `createClaim` invocations differing only in
`claimDate` issue identical submissions — and after refresh the stored
claim's `claimDate` is derived from the ledger timestamp (here
"1970-01-01"), not the date "2024-01-15" the caller supplied. -/
theorem createClaim_claimDate_dropped :
    (createClaim true (some "0xA") true
        { policyNumber := "POL-9", claimAmount := "500", provider := "Acme",
          claimDate := "2024-01-15" } 5 "0xC" encOk txOk []
        [(mkBusinessId 5, bd9)]).submissions =
      (createClaim true (some "0xA") true
        { policyNumber := "POL-9", claimAmount := "500", provider := "Acme",
          claimDate := "1999-12-31" } 5 "0xC" encOk txOk []
        [(mkBusinessId 5, bd9)]).submissions ∧
    ((createClaim true (some "0xA") true
        { policyNumber := "POL-9", claimAmount := "500", provider := "Acme",
          claimDate := "2024-01-15" } 5 "0xC" encOk txOk []
        [(mkBusinessId 5, bd9)]).repo.map (fun c => c.claimDate))
      = ["1970-01-01"] ∧
    ("1970-01-01" : String) ≠ "2024-01-15" := by
  refine ⟨rfl, by decide, by decide⟩

/-- C9 amended: `createClaim` is independent of the caller-supplied
`claimDate` (it is not part of the ledger submission), and every refreshed
claim's `claimDate` is derived from the ledger-assigned timestamp. -/
theorem createClaim_claimDate_not_transmitted
    (connected : Bool) (address : Option String) (signerOk : Bool)
    (data : NewClaimData) (d1 d2 : String) (nowMs : Nat) (ca : String)
    (enc : String → String → Int → EncryptOutcome)
    (tx : SubmitPayload → TxOutcome) (repo : List ClaimRecord)
    (ledgerAfter : Ledger) :
    createClaim connected address signerOk { data with claimDate := d1 }
        nowMs ca enc tx repo ledgerAfter
      = createClaim connected address signerOk { data with claimDate := d2 }
        nowMs ca enc tx repo ledgerAfter ∧
    (loadClaims ledgerAfter).map (fun c => c.claimDate)
      = ledgerAfter.map (fun p => isoDateOfTimestamp p.2.timestamp) := by
  constructor
  · cases address with
    | none => rfl
    | some a =>
      cases connected with
      | false => rfl
      | true =>
        cases signerOk with
        | false => rfl
        | true => simp only [createClaim]
  · induction ledgerAfter with
    | nil => rfl
    | cons p t ih =>
        show (mkClaimRecord p.1 p.2).claimDate
              :: (loadClaims t).map (fun c => c.claimDate)
            = isoDateOfTimestamp p.2.timestamp
              :: t.map (fun q => isoDateOfTimestamp q.2.timestamp)
        exact congrArg₂ List.cons rfl ih

/-! Decimal stringification facts needed for the id-uniqueness claim. -/

/-- The accumulator of `Nat.toDigitsCore` is just appended to the output. -/
theorem toDigitsCore_eq_append (b : Nat) :
    ∀ (f n : Nat) (acc : List Char),
      Nat.toDigitsCore b f n acc = Nat.toDigitsCore b f n [] ++ acc := by
  intro f
  induction f with
  | zero => intro n acc; simp [Nat.toDigitsCore]
  | succ f ih =>
      intro n acc
      simp only [Nat.toDigitsCore]
      by_cases h : n / b = 0
      · simp [h]
      · simp only [h, if_false]
        rw [ih (n / b) (Nat.digitChar (n % b) :: acc),
            ih (n / b) [Nat.digitChar (n % b)]]
        simp

/-- Folding one more character into `digitsVal`. -/
theorem digitsVal_append (l : List Char) (c : Char) :
    digitsVal (l ++ [c]) = digitsVal l * 10 + (c.toNat - 48) := by
  simp [digitsVal, List.foldl_append]

/-- The decimal digit characters decode to their values. -/
theorem digitChar_val (d : Nat) (h : d < 10) :
    (Nat.digitChar d).toNat - 48 = d := by
  interval_cases d <;> rfl

/-- With enough fuel, `digitsVal` decodes `Nat.toDigitsCore` base 10. -/
theorem digitsVal_toDigitsCore :
    ∀ (f n : Nat), n < f → digitsVal (Nat.toDigitsCore 10 f n []) = n := by
  intro f
  induction f with
  | zero => intro n h; omega
  | succ f ih =>
      intro n h
      simp only [Nat.toDigitsCore]
      by_cases h10 : n / 10 = 0
      · have hn : n < 10 := by omega
        simp only [h10, if_pos]
        show digitsVal [Nat.digitChar (n % 10)] = n
        have hv : digitsVal [Nat.digitChar (n % 10)]
            = (Nat.digitChar (n % 10)).toNat - 48 := by
          simp [digitsVal]
        rw [hv, digitChar_val (n % 10) (by omega)]
        omega
      · rw [if_neg h10, toDigitsCore_eq_append, digitsVal_append,
            ih (n / 10) (by omega), digitChar_val (n % 10) (by omega)]
        omega

/-- Decimal stringification of naturals is injective. -/
theorem natRepr_injective (a b : Nat) (h : Nat.repr a = Nat.repr b) : a = b := by
  have hd : Nat.toDigits 10 a = Nat.toDigits 10 b := by
    have hdata := congrArg String.data h
    simpa [Nat.repr, List.asString] using hdata
  have va : digitsVal (Nat.toDigits 10 a) = a :=
    digitsVal_toDigitsCore (a + 1) a (Nat.lt_succ_self a)
  have vb : digitsVal (Nat.toDigits 10 b) = b :=
    digitsVal_toDigitsCore (b + 1) b (Nat.lt_succ_self b)
  rw [← va, ← vb, hd]

/-- C8 counterexample: two distinct `createClaim` invocations (different
callers and different form data) that observe the same `Date.now()`
millisecond value are assigned the same claim id, so ids are not globally
unique without cross-call coordination. -/
theorem createClaim_same_ms_id_collision :
    ((createClaim true (some "0xA") true
        { policyNumber := "POL-A", claimAmount := "100", provider := "Acme",
          claimDate := "2024-01-15" } 1700000000000 "0xC" encOk txOk []
        []).submissions.map (fun p => p.businessId)) = ["claim-1700000000000"] ∧
    ((createClaim true (some "0xB") true
        { policyNumber := "POL-B", claimAmount := "200", provider := "Zeta",
          claimDate := "2024-02-20" } 1700000000000 "0xC" encOk txOk []
        []).submissions.map (fun p => p.businessId)) = ["claim-1700000000000"] ∧
    ({ policyNumber := "POL-A", claimAmount := "100", provider := "Acme",
       claimDate := "2024-01-15" } : NewClaimData)
      ≠ { policyNumber := "POL-B", claimAmount := "200", provider := "Zeta",
          claimDate := "2024-02-20" } := by
  refine ⟨by decide, by decide, by decide⟩

/-- C8 amended: ids never collide only across invocations that observe
distinct `Date.now()` values — the assigned id determines the millisecond
timestamp injectively, but two invocations in the same millisecond receive
the same id. -/
theorem mkBusinessId_injective (t1 t2 : Nat) (h : t1 ≠ t2) :
    mkBusinessId t1 ≠ mkBusinessId t2 := by
  intro he
  apply h
  apply natRepr_injective
  have hdata := congrArg String.data he
  simp only [mkBusinessId, String.data_append] at hdata
  have := (List.append_right_inj (String.data "claim-")).mp hdata
  exact String.ext this

/-- Witness for the amended C8 at two distinct timestamps. -/
theorem mkBusinessId_injective_witness :
    (1700000000000 : Nat) ≠ 1700000000001 ∧
    mkBusinessId 1700000000000 ≠ mkBusinessId 1700000000001 :=
  ⟨by decide, mkBusinessId_injective 1700000000000 1700000000001 (by decide)⟩

end FraudDetect
